import Mathlib

/-!
Verification of the request-construction and dispatch core of
`bigcommerce_toolkit/__main__.py` (a CLI translating a declarative command
tree into HTTP calls).

The Python source is shallowly embedded:
* JSON values (the results of `json.loads`) are the inductive `JVal`;
  Python `dict`s are insertion-ordered association lists (`Dict`) with
  last-write-wins assignment (`Dict.insert`) and `dict.update` semantics
  (`Dict.update`).
* Python exceptions (IndexError, AttributeError, TypeError, JSONDecodeError)
  become `Except PyErr` results.
* The external collaborators — standard input and the `json.loads` parser —
  are a parameter `PyEnv`; the HTTP transport (`requests`) is a parameter
  `transport : Request → RawResponse`.  A `Request` records everything the
  source passes to `requests.request`: method, url, whether the
  `Content-Type: application/json` header is set, the `json=` body, the
  `data=` (form) body, the `params=` query mapping and the `files=` mapping.
* The unbounded `while True` pagination loop takes an explicit `fuel`
  argument; running out of fuel is the distinguished result `PyErr.fuelOut`.
* File handles opened by `open(path, 'rb')` are tracked in an explicit
  `RunState` (lists of opened and closed paths), since the source manages
  them by hand.
-/

/-- JSON values as produced by `json.loads` (numbers restricted to the
integers, which is all the source and its API traffic use). -/
inductive JVal where
  | null
  | bool (b : Bool)
  | num (n : Int)
  | str (s : String)
  | arr (xs : List JVal)
  | obj (fields : List (String × JVal))

/-- A Python `dict` with string keys: an insertion-ordered association list. -/
abbrev Dict := List (String × JVal)

/-- Python `d[k]` lookup (first matching key; dicts built by the embedding
never hold a duplicate key). -/
def Dict.get : Dict → String → Option JVal
  | [], _ => none
  | p :: tl, k => if p.1 == k then some p.2 else Dict.get tl k

/-- Python `k in d`. -/
def Dict.hasKey : Dict → String → Bool
  | [], _ => false
  | p :: tl, k => p.1 == k || Dict.hasKey tl k

/-- Python `d[k] = v`: overwrite in place, keeping the key's position, or
append a new key at the end. -/
def Dict.insert : Dict → String → JVal → Dict
  | [], k, v => [(k, v)]
  | p :: tl, k, v => if p.1 == k then (k, v) :: tl else p :: Dict.insert tl k v

/-- Python `d.update(e)`: assign every entry of `e` into `d`, in `e`'s order. -/
def Dict.update (d e : Dict) : Dict :=
  e.foldl (fun acc p => Dict.insert acc p.1 p.2) d

/-- Python `d.pop(k)` restricted to its removal effect (the popped value is
read separately with `Dict.get`). -/
def Dict.pop (d : Dict) (k : String) : Dict :=
  d.filter (fun p => !(p.1 == k))

/-- The keys of a dict are pairwise distinct — the invariant every dict
reachable from `json.loads` or built by the source satisfies. -/
def NodupKeys (d : Dict) : Prop :=
  List.Pairwise (fun p q : String × JVal => p.1 ≠ q.1) d

/-- Character-list core of Python `str.startswith`. -/
def py_startswith_chars : List Char → List Char → Bool
  | _, [] => true
  | [], _ :: _ => false
  | c :: cs, p :: ps => c == p && py_startswith_chars cs ps

/-- Python `s.startswith(pat)`. -/
def py_startswith (s pat : String) : Bool :=
  py_startswith_chars s.data pat.data

/-- Python `flag.lstrip('--').replace('-', '_')` from `parse_additional_data`:
strip every leading dash, then turn the remaining dashes into underscores. -/
def pyKey (flag : String) : String :=
  String.mk ((flag.data.dropWhile (fun c => c == '-')).map
    (fun c => if c == '-' then '_' else c))

/-- Python exceptions the embedded code can raise, plus `fuelOut` (the
pagination loop did not terminate within the supplied fuel) and
`unsupportedShape` (the error condition the specification prescribes for a
scalar payload; the source never produces it — it is declared only so that
the specification's sentence can be stated). -/
inductive PyErr where
  | attributeError
  | typeError
  | indexError
  | keyError
  | jsonDecodeError
  | fuelOut
  | unsupportedShape
deriving DecidableEq

/-- The ambient collaborators of the merger: the full content of standard
input and the `json.loads` parser (`none` models a `JSONDecodeError`). -/
structure PyEnv where
  stdin : String
  jsonParse : String → Option JVal

/-- Source `parse_input_data`: substitute stdin (trimmed) for the sentinel
`-`, then `json.loads` it, falling back to the raw string on parse failure. -/
def parse_input_data (env : PyEnv) (data_str : String) : JVal :=
  let s := if data_str == "-" then env.stdin.trim else data_str
  match env.jsonParse s with
  | some v => v
  | none => JVal.str s

/-- Loop of source `parse_additional_data`: `for i in range(0, len, 2)`
reads tokens two at a time; a pair is consumed only when its first token
starts with `--`; a trailing lone token that starts with `--` makes
`unknown_args[i+1]` raise an IndexError. -/
def parse_additional_loop (env : PyEnv) : List String → Dict → Except PyErr Dict
  | [], acc => Except.ok acc
  | [a], acc =>
    if py_startswith a "--" then Except.error PyErr.indexError else Except.ok acc
  | a :: b :: rest, acc =>
    if py_startswith a "--" then
      parse_additional_loop env rest (Dict.insert acc (pyKey a) (parse_input_data env b))
    else
      parse_additional_loop env rest acc

/-- Source `parse_additional_data`: fold the extra tokens into a fresh dict. -/
def parse_additional_data (env : PyEnv) (unknown_args : List String) : Except PyErr Dict :=
  parse_additional_loop env unknown_args []

/-- Source `construct_request_data`, list branch: `for item in data:
item.update(additional_data)`; a non-dict element raises AttributeError. -/
def updateItems (additional : Dict) : List JVal → Except PyErr (List JVal)
  | [] => Except.ok []
  | JVal.obj d :: rest =>
    match updateItems additional rest with
    | Except.ok rest2 => Except.ok (JVal.obj (Dict.update d additional) :: rest2)
    | Except.error e => Except.error e
  | _ :: _ => Except.error PyErr.attributeError

/-- Source `construct_request_data`: parse the primary `--data` value (an
absent or empty primary is the empty dict), parse the extra tokens, then
merge.  A primary that is neither a dict nor a list reaches `data.update`
and raises AttributeError. -/
def construct_request_data (env : PyEnv) (data_arg : Option String)
    (unknown_args : List String) : Except PyErr JVal :=
  let data : JVal :=
    match data_arg with
    | some s => if s ≠ "" then parse_input_data env s else JVal.obj []
    | none => JVal.obj []
  match parse_additional_data env unknown_args with
  | Except.error e => Except.error e
  | Except.ok additional =>
    match data with
    | JVal.arr items =>
      match updateItems additional items with
      | Except.ok items2 => Except.ok (JVal.arr items2)
      | Except.error e => Except.error e
    | JVal.obj d => Except.ok (JVal.obj (Dict.update d additional))
    | _ => Except.error PyErr.attributeError

/-- Discriminates the payload shapes that are neither a mapping nor a list. -/
def isScalarJVal : JVal → Bool
  | JVal.obj _ => false
  | JVal.arr _ => false
  | _ => true

/-- An HTTP response as the source observes it: the status code and the
parsed JSON body (`none` models an empty body, on which `response.json()`
raises a JSONDecodeError). -/
structure RawResponse where
  status : Nat
  content : Option JVal

/-- Everything the source hands to `requests`: method, full url, whether the
`Content-Type: application/json` header is set (it is suppressed for
multipart), the `json=` body, the `data=` form body, the `params=` query
mapping, and the `files=` mapping (field name and opened file path). -/
structure Request where
  method : String
  url : String
  contentTypeJson : Bool
  jsonBody : Option JVal
  dataBody : Option JVal
  params : Option JVal
  files : Option (String × String)

/-- Source url construction in `make_request`. -/
def api_url (store_hash endpoint : String) : String :=
  "https://api.bigcommerce.com/stores/" ++ store_hash ++ "/" ++ endpoint

/-- Source `{**params, 'page': page} if params else {'page': page}`. -/
def paginated_params (params : Option Dict) (page : Nat) : Dict :=
  match params with
  | some d => if !d.isEmpty then Dict.insert d "page" (JVal.num page) else [("page", JVal.num page)]
  | none => [("page", JVal.num page)]

/-- The GET request one pagination iteration issues. -/
def page_request (url : String) (ctJson : Bool) (params : Option Dict) (page : Nat) : Request :=
  ⟨"GET", url, ctJson, none, none, some (JVal.obj (paginated_params params page)), none⟩

/-- Source `json_response.get('data', [])` followed by `results.extend`:
an absent field is the empty list, a list is spliced, a string or dict is
iterated the way Python iterates it, anything else raises; a non-dict
response body raises AttributeError at `.get`. -/
def pyGetData : JVal → Except PyErr (List JVal)
  | JVal.obj d =>
    match Dict.get d "data" with
    | none => Except.ok []
    | some (JVal.arr xs) => Except.ok xs
    | some (JVal.str s) => Except.ok (s.data.map (fun c => JVal.str (String.mk [c])))
    | some (JVal.obj d2) => Except.ok (d2.map (fun p => JVal.str p.1))
    | some _ => Except.error PyErr.typeError
  | _ => Except.error PyErr.attributeError

/-- Source `json_response.get('meta', {}).get('pagination', {}).get('total_pages', 0)`:
each absent level defaults to an empty dict and an absent count to 0; a
non-dict level raises at `.get`, a non-numeric count raises at `page >=`. -/
def pyTotalPages : JVal → Except PyErr Int
  | JVal.obj d =>
    match (Dict.get d "meta").getD (JVal.obj []) with
    | JVal.obj m =>
      match (Dict.get m "pagination").getD (JVal.obj []) with
      | JVal.obj pg =>
        match (Dict.get pg "total_pages").getD (JVal.num 0) with
        | JVal.num n => Except.ok n
        | JVal.bool b => Except.ok (if b then 1 else 0)
        | _ => Except.error PyErr.typeError
      | _ => Except.error PyErr.attributeError
    | _ => Except.error PyErr.attributeError
  | _ => Except.error PyErr.attributeError

/-- Source `make_paginated_request`'s `while True` loop, with explicit fuel.
Arguments after the fuel: the current page (the caller starts it at 1), the
accumulated `results`, and the log of requests issued so far. -/
def paginate_loop (transport : Request → RawResponse) (url : String) (ctJson : Bool)
    (params : Option Dict) : Nat → Nat → List JVal → List Request →
    (Except PyErr JVal) × List Request
  | 0, _, _, log => (Except.error PyErr.fuelOut, log)
  | fuel + 1, page, results, log =>
    let req := page_request url ctJson params page
    let resp := transport req
    let log2 := log ++ [req]
    if resp.status ≠ 200 then
      match resp.content with
      | some v => (Except.ok v, log2)
      | none => (Except.error PyErr.jsonDecodeError, log2)
    else
      match resp.content with
      | none => (Except.error PyErr.jsonDecodeError, log2)
      | some jr =>
        match pyGetData jr with
        | Except.error e => (Except.error e, log2)
        | Except.ok ds =>
          match pyTotalPages jr with
          | Except.error e => (Except.error e, log2)
          | Except.ok tp =>
            if (page : Int) ≥ tp then
              (Except.ok (JVal.obj [("data", JVal.arr (results ++ ds))]), log2)
            else
              paginate_loop transport url ctJson params fuel (page + 1) (results ++ ds) log2

/-- Source `make_paginated_request`: run the loop from page 1 with an empty
accumulator. -/
def make_paginated_request (transport : Request → RawResponse) (url : String)
    (ctJson : Bool) (params : Option Dict) (fuel : Nat) :
    (Except PyErr JVal) × List Request :=
  paginate_loop transport url ctJson params fuel 1 [] []

/-- The single request `make_request` issues outside the pagination branch:
`json=data if not files else None, data=data if files else None`. -/
def single_request (method url : String) (data params : Option JVal)
    (files : Option (String × String)) : Request :=
  ⟨method, url, files.isNone,
   if files.isNone then data else none,
   if files.isSome then data else none,
   params, files⟩

/-- Source `make_request`: build the url, branch to pagination for a
paginated GET (a non-dict `params` would raise at the `{**params}` splat),
otherwise issue one request and map the response: status 200/204 returns the
parsed body, or the `No Content` marker when the body is empty; any other
status returns the parsed body as-is. -/
def make_request (transport : Request → RawResponse) (method endpoint : String)
    (data params : Option JVal) (all_pages : Bool) (store_hash auth_token : String)
    (files : Option (String × String)) (fuel : Nat) :
    (Except PyErr JVal) × List Request :=
  let url := api_url store_hash endpoint
  if all_pages && (method == "GET") then
    match params with
    | none => make_paginated_request transport url files.isNone none fuel
    | some (JVal.obj d) => make_paginated_request transport url files.isNone (some d) fuel
    | some _ => (Except.error PyErr.typeError, [])
  else
    let req := single_request method url data params files
    let resp := transport req
    ((if resp.status == 200 || resp.status == 204 then
        match resp.content with
        | some v => Except.ok v
        | none =>
          Except.ok (JVal.obj [("status", JVal.num resp.status), ("title", JVal.str "No Content")])
      else
        match resp.content with
        | some v => Except.ok v
        | none => Except.error PyErr.jsonDecodeError),
     [req])

/-- File handles the dispatch opened and closed.  The source opens a handle
per multipart upload with `open(path, 'rb')` and contains no close call, so
`closedFiles` can only ever be filled by code that does not exist. -/
structure RunState where
  openedFiles : List String
  closedFiles : List String

/-- Source `handle_request` continuation for the non-multipart case: route
the merged payload to `data=` for POST/PUT or `params=` for GET. -/
def handle_request_plain (transport : Request → RawResponse) (endpoint method : String)
    (all_pages : Bool) (request_data : JVal) (store_hash auth_token : String) (fuel : Nat) :
    (Except PyErr JVal) × List Request × RunState :=
  let r := make_request transport method endpoint
    (if method == "POST" || method == "PUT" then some request_data else none)
    (if method == "GET" then some request_data else none)
    all_pages store_hash auth_token none fuel
  (r.1, r.2, ⟨[], []⟩)

/-- Source `handle_request`: `is_multipart = multipart_parameter in request_data`
(a `None` field name is never a key of a string-keyed dict; membership in a
list compares elements; membership in a scalar raises TypeError).  In the
multipart case the key is popped, its value opened as a binary file, and the
request carries `files={multipart_parameter: handle}`; `request_data.pop` on
a list and `open` on a non-string value raise TypeError.  The opened handle
is recorded in the returned `RunState` and is never closed. -/
def handle_request (transport : Request → RawResponse) (endpoint method : String)
    (all_pages : Bool) (multipart_parameter : Option String) (request_data : JVal)
    (store_hash auth_token : String) (fuel : Nat) :
    (Except PyErr JVal) × List Request × RunState :=
  match multipart_parameter, request_data with
  | some k, JVal.obj d =>
    if Dict.hasKey d k then
      match Dict.get d k with
      | some (JVal.str path) =>
        let r := make_request transport method endpoint
          (if method == "POST" || method == "PUT" then some (JVal.obj (Dict.pop d k)) else none)
          (if method == "GET" then some (JVal.obj (Dict.pop d k)) else none)
          all_pages store_hash auth_token (some (k, path)) fuel
        (r.1, r.2, ⟨[path], []⟩)
      | some _ => (Except.error PyErr.typeError, [], ⟨[], []⟩)
      | none => (Except.error PyErr.keyError, [], ⟨[], []⟩)
    else
      handle_request_plain transport endpoint method all_pages (JVal.obj d) store_hash auth_token fuel
  | some k, JVal.arr xs =>
    if xs.any (fun v => match v with | JVal.str s2 => s2 == k | _ => false) then
      (Except.error PyErr.typeError, [], ⟨[], []⟩)
    else
      handle_request_plain transport endpoint method all_pages (JVal.arr xs) store_hash auth_token fuel
  | none, JVal.obj d =>
    handle_request_plain transport endpoint method all_pages (JVal.obj d) store_hash auth_token fuel
  | none, JVal.arr xs =>
    if xs.any (fun v => match v with | JVal.null => true | _ => false) then
      (Except.error PyErr.typeError, [], ⟨[], []⟩)
    else
      handle_request_plain transport endpoint method all_pages (JVal.arr xs) store_hash auth_token fuel
  | _, _ => (Except.error PyErr.typeError, [], ⟨[], []⟩)

/-- A value stored in an action entry of the shipped command tree. -/
inductive AVal where
  | s (v : String)
  | b (v : Bool)
deriving DecidableEq

/-- One action dict of the shipped command tree, with its keys exactly as
spelled in the source. -/
abbrev ActionDict := List (String × AVal)

/-- Python `action.get(key, None)` on an action dict. -/
def aget : ActionDict → String → Option AVal
  | [], _ => none
  | p :: tl, k => if p.1 == k then some p.2 else aget tl k

/-- Source `action.get('multipartParameter', None)` as read by
`action_command` when dispatching. -/
def action_multipart (a : ActionDict) : Option AVal :=
  aget a "multipartParameter"

/-- Shared action dicts of the shipped tree (they repeat verbatim). -/
def aGet : ActionDict := [("action", AVal.s "get"), ("method", AVal.s "GET")]

def aGetAll : ActionDict :=
  [("action", AVal.s "get-all"), ("method", AVal.s "GET"), ("allPages", AVal.b true)]

def aAdd : ActionDict := [("action", AVal.s "add"), ("method", AVal.s "POST")]

def aUpdate : ActionDict := [("action", AVal.s "update"), ("method", AVal.s "PUT")]

def aDelete : ActionDict := [("action", AVal.s "delete"), ("method", AVal.s "DELETE")]

/-- The two image-upload actions: note the source spells the key
`multipartParamter`, not `multipartParameter`. -/
def aAddImage : ActionDict :=
  [("action", AVal.s "add"), ("method", AVal.s "POST"), ("multipartParamter", AVal.s "image_file")]

def aUpload : ActionDict := [("action", AVal.s "upload"), ("method", AVal.s "POST")]

def aSet : ActionDict := [("action", AVal.s "set"), ("method", AVal.s "POST")]

def aAddPut : ActionDict := [("action", AVal.s "add"), ("method", AVal.s "PUT")]

/-- A subcommand entry of the shipped tree (every shipped subcommand has an
endpoint and actions, and no further nesting). -/
structure SubCommandDict where
  command : String
  endpoint : String
  actions : List ActionDict

/-- A top-level command entry of the shipped tree. -/
structure CommandDict where
  command : String
  endpoint : Option String
  actions : List ActionDict
  subcommands : List SubCommandDict

/-- The static `commands_structure` dictionary from `main`, transcribed. -/
def commands_structure : List CommandDict := [
  ⟨"product", some "v3/catalog/products/{product_id}",
    [aGet, aAdd, aUpdate, aDelete],
    [⟨"metafield", "v3/catalog/products/{product_id}/metafields/{metafield_id}",
       [aGet, aUpdate, aDelete]⟩,
     ⟨"metafields", "v3/catalog/products/{product_id}/metafields",
       [aGet, aGetAll, aAdd]⟩,
     ⟨"custom-field", "v3/catalog/products/{product_id}/custom-fields/{custom_field_id}",
       [aGet, aUpdate, aDelete]⟩,
     ⟨"custom-fields", "v3/catalog/products/{product_id}/custom-fields",
       [aGet, aGetAll, aAdd]⟩,
     ⟨"image", "v3/catalog/products/{product_id}/images/{image_id}",
       [aGet, aUpdate, aDelete]⟩,
     ⟨"images", "v3/catalog/products/{product_id}/images",
       [aGet, aGetAll, aAddImage]⟩]⟩,
  ⟨"products", some "v3/catalog/products",
    [aGet, aGetAll, aAdd, aUpdate, aDelete], []⟩,
  ⟨"category-tree", some "v3/catalog/trees/{tree_id}/categories",
    [aGet, aUpdate, aDelete], []⟩,
  ⟨"category-trees", some "v3/catalog/trees",
    [aGet, aGetAll, aAdd, aUpdate, aDelete], []⟩,
  ⟨"category", none, [],
    [⟨"metafield", "v3/catalog/categories/{category_id}/metafields/{metafield_id}",
       [aGet, aUpdate, aDelete]⟩,
     ⟨"metafields", "v3/catalog/categories/{category_id}/metafields",
       [aGet, aGetAll, aAdd]⟩,
     ⟨"image", "v3/catalog/categories/{category_id}/image",
       [aGet, aAddImage, aUpdate, aDelete]⟩]⟩,
  ⟨"categories", some "v3/catalog/trees/categories",
    [aGet, aGetAll, aAdd, aUpdate, aDelete], []⟩,
  ⟨"customer", none, [],
    [⟨"metafields", "v3/customers/{customer_id}/metafields",
       [aGet, aAdd, aUpdate, aDelete]⟩]⟩,
  ⟨"customers", some "v3/customers",
    [aGet, aGetAll, aAdd, aUpdate, aDelete], []⟩,
  ⟨"order", some "v2/orders/{order_id}", [],
    [⟨"metafields", "v3/orders/{order_id}/metafields",
       [aGet, aAdd, aUpdate, aDelete]⟩]⟩,
  ⟨"orders", some "v2/orders",
    [aGet, aGetAll, aAdd, aDelete], []⟩,
  ⟨"page", some "v3/content/pages/{page_id}",
    [aGet, aUpdate, aDelete], []⟩,
  ⟨"pages", some "v3/content/pages",
    [aGet, aGetAll, aAdd, aUpdate, aDelete], []⟩,
  ⟨"redirects", some "v3/storefront/redirects",
    [aGet, aGetAll, aAdd, aUpdate, aDelete], []⟩,
  ⟨"site", some "v3/sites/{site_id}",
    [aGet, aUpdate, aDelete], []⟩,
  ⟨"sites", some "v3/sites",
    [aGet, aGetAll, aAdd], []⟩,
  ⟨"widget-template", some "v3/content/widget-templates/{uuid}",
    [aGet, aUpdate, aDelete],
    [⟨"render", "v3/content/widget-templates/{uuid}/preview", [aAdd]⟩]⟩,
  ⟨"widget-templates", some "v3/content/widget-templates",
    [aGet, aGetAll, aAdd], []⟩,
  ⟨"widget", some "v3/content/widgets/{uuid}",
    [aGet, aUpdate, aDelete], []⟩,
  ⟨"widgets", some "v3/content/widgets",
    [aGet, aGetAll, aAdd], []⟩,
  ⟨"placement", some "v3/content/placements/{uuid}",
    [aGet, aUpdate, aDelete], []⟩,
  ⟨"placements", some "v3/content/placements",
    [aGet, aGetAll, aAdd], []⟩,
  ⟨"regions", some "v3/content/regions",
    [aGet], []⟩,
  ⟨"custom-template-associations", some "v3/storefront/custom-template-associations",
    [aGet, aGetAll, aAddPut, aUpdate, aDelete], []⟩,
  ⟨"themes", some "v3/themes",
    [aGet, aGetAll, aUpload],
    [⟨"custom-templates", "v3/themes/custom-templates/{version_uuid}",
       [aGet, aGetAll]⟩,
     ⟨"activate", "v3/themes/actions/activate", [aSet]⟩]⟩,
  ⟨"theme", some "v3/themes/{uuid}",
    [aGet, aDelete], []⟩,
  ⟨"channels", some "v3/channels",
    [aGet, aGetAll, aAdd], []⟩,
  ⟨"channel", some "v3/channels/{channel_id}",
    [aGet, aUpdate],
    [⟨"active-theme", "v3/channels/{channel_id}/active-theme", [aGet]⟩]⟩]

/-- Every action `build_commands` compiles a command for: the walk in
`build_commands` registers each command's own actions and, via
`add_subcommand_groups`, each direct subcommand's actions (the source does
not recurse deeper, and no shipped subcommand nests further). -/
def allActions : List ActionDict :=
  commands_structure.flatMap
    (fun c => c.actions ++ c.subcommands.flatMap (fun sc => sc.actions))

/-- Concrete environment: stdin unused; `json.loads` recognises the object
literal `\x7b"a":1\x7d`, the array literal `[\x7b"a":1\x7d]` and the numerals
`2` and `5`, and fails on everything else. -/
def envW : PyEnv :=
  ⟨"", fun s =>
    if s == "\x7b\"a\":1\x7d" then some (JVal.obj [("a", JVal.num 1)])
    else if s == "[\x7b\"a\":1\x7d]" then some (JVal.arr [JVal.obj [("a", JVal.num 1)]])
    else if s == "2" then some (JVal.num 2)
    else if s == "5" then some (JVal.num 5)
    else none⟩

/-- A page body carrying a `data` array and a `total_pages` count. -/
def pageBody (tp : Int) (ds : List JVal) : JVal :=
  JVal.obj [("data", JVal.arr ds),
    ("meta", JVal.obj [("pagination", JVal.obj [("total_pages", JVal.num tp)])])]

/-- Concrete transport: three pages, each reporting three pages in total. -/
def tr3 : Request → RawResponse := fun r =>
  match r.params with
  | some (JVal.obj [("page", JVal.num 1)]) => ⟨200, some (pageBody 3 [JVal.num 10])⟩
  | some (JVal.obj [("page", JVal.num 2)]) => ⟨200, some (pageBody 3 [JVal.num 20])⟩
  | some (JVal.obj [("page", JVal.num 3)]) => ⟨200, some (pageBody 3 [JVal.num 30])⟩
  | _ => ⟨404, none⟩

/-- Concrete transport: page 1 is healthy and announces three pages, but
page 2 answers with status 500 and an error body. -/
def tr3err : Request → RawResponse := fun r =>
  match r.params with
  | some (JVal.obj [("page", JVal.num 1)]) => ⟨200, some (pageBody 3 [JVal.num 10])⟩
  | some (JVal.obj [("page", JVal.num 2)]) => ⟨500, some (JVal.str "boom")⟩
  | _ => ⟨404, none⟩

/-- Concrete transport answering 200 with a body, whatever the request. -/
def trBody : Request → RawResponse := fun _ => ⟨200, some (JVal.str "ok")⟩

/-- Concrete transport answering 204 with an empty body. -/
def trEmpty : Request → RawResponse := fun _ => ⟨204, none⟩

/-- Concrete transport answering 500 with an error body. -/
def trErr : Request → RawResponse := fun _ => ⟨500, some (JVal.str "err")⟩

/-- Merged multipart payload: the file-path field plus one ordinary field. -/
def payload5 : JVal :=
  JVal.obj [("image_file", JVal.str "f.png"), ("x", JVal.num 1)]

/-- Looking up the key just assigned yields the assigned value. -/
theorem Dict.get_insert_self (d : Dict) (k : String) (v : JVal) :
    Dict.get (Dict.insert d k v) k = some v := by
  induction d with
  | nil => simp [Dict.insert, Dict.get]
  | cons p tl ih =>
    by_cases h : p.1 == k
    · simp [Dict.insert, h, Dict.get]
    · simp [Dict.insert, h, Dict.get, ih]

/-- Assignment does not disturb the other keys. -/
theorem Dict.get_insert_ne (d : Dict) (k k2 : String) (v : JVal) (h : k2 ≠ k) :
    Dict.get (Dict.insert d k2 v) k = Dict.get d k := by
  induction d with
  | nil => simp [Dict.insert, Dict.get, h]
  | cons p tl ih =>
    by_cases hp : p.1 == k2
    · have hp2 : p.1 = k2 := by simpa using hp
      simp [Dict.insert, hp, Dict.get, h, hp2]
    · simp [Dict.insert, hp, Dict.get, ih]

/-- A key that is not present looks up to nothing. -/
theorem Dict.get_eq_none_of_hasKey_eq_false (d : Dict) (k : String)
    (h : Dict.hasKey d k = false) : Dict.get d k = none := by
  induction d with
  | nil => rfl
  | cons p tl ih =>
    simp [Dict.hasKey] at h
    simp [Dict.get, h.1, ih h.2]

/-- Key absence spelt over the entries. -/
theorem Dict.hasKey_eq_false_iff (d : Dict) (k : String) :
    Dict.hasKey d k = false ↔ ∀ p ∈ d, p.1 ≠ k := by
  induction d with
  | nil => simp [Dict.hasKey]
  | cons p tl ih => simp [Dict.hasKey, ih]

/-- Every entry of an assignment's result was present before or carries the
assigned key. -/
theorem Dict.mem_insert (d : Dict) (k : String) (v : JVal) (q : String × JVal)
    (h : q ∈ Dict.insert d k v) : q ∈ d ∨ q.1 = k := by
  induction d with
  | nil =>
    simp [Dict.insert] at h
    simp [h]
  | cons p tl ih =>
    by_cases hp : p.1 == k
    · simp [Dict.insert, hp] at h
      rcases h with h | h
      · simp [h]
      · simp [h]
    · simp [Dict.insert, hp] at h
      rcases h with h | h
      · simp [h]
      · rcases ih h with h2 | h2
        · simp [h2]
        · simp [h2]

/-- Assignment preserves distinctness of keys. -/
theorem Dict.insert_nodup (d : Dict) (k : String) (v : JVal) (h : NodupKeys d) :
    NodupKeys (Dict.insert d k v) := by
  induction d with
  | nil => simp [Dict.insert, NodupKeys]
  | cons p tl ih =>
    rcases h with _ | ⟨hhead, htail⟩
    by_cases hp : p.1 == k
    · have hp2 : p.1 = k := by simpa using hp
      rw [show Dict.insert (p :: tl) k v = (k, v) :: tl by simp [Dict.insert, hp]]
      refine List.Pairwise.cons ?_ htail
      intro q hq
      exact hp2 ▸ hhead q hq
    · rw [show Dict.insert (p :: tl) k v = p :: Dict.insert tl k v by simp [Dict.insert, hp]]
      refine List.Pairwise.cons ?_ (ih htail)
      intro q hq
      rcases Dict.mem_insert tl k v q hq with h2 | h2
      · exact hhead q h2
      · rw [h2]
        simpa using hp

/-- Unfolding `Dict.update` one override at a time. -/
theorem Dict.update_cons (P : Dict) (k : String) (v : JVal) (E : Dict) :
    Dict.update P ((k, v) :: E) = Dict.update (Dict.insert P k v) E := rfl

/-- Updating by overrides that avoid a key leaves that key's binding alone. -/
theorem Dict.update_get_of_hasKey_eq_false (E : Dict) (P : Dict) (k : String)
    (h : Dict.hasKey E k = false) :
    Dict.get (Dict.update P E) k = Dict.get P k := by
  induction E generalizing P with
  | nil => rfl
  | cons p E2 ih =>
    simp [Dict.hasKey] at h
    rw [show (p : String × JVal) = (p.1, p.2) from rfl, Dict.update_cons,
      ih _ h.2, Dict.get_insert_ne _ _ _ _ h.1]

/-- On a key the overrides mention, the override's binding wins. -/
theorem Dict.update_get_of_hasKey : ∀ (E P : Dict) (k : String),
    NodupKeys E → Dict.hasKey E k = true →
    Dict.get (Dict.update P E) k = Dict.get E k
  | [], _, k, _, h => by simp [Dict.hasKey] at h
  | (k0, v0) :: E2, P, k, hn, h => by
    rcases hn with _ | ⟨hhead, htail⟩
    rw [Dict.update_cons]
    by_cases hp : (k0 == k : Bool)
    · have hp2 : k0 = k := by simpa using hp
      have habs : Dict.hasKey E2 k = false := by
        rw [Dict.hasKey_eq_false_iff]
        intro q hq
        exact fun hqk => hhead q hq (hp2.trans hqk.symm)
      rw [Dict.update_get_of_hasKey_eq_false E2 _ k habs, hp2,
        Dict.get_insert_self]
      simp [Dict.get, hp]
    · have h2 : Dict.hasKey E2 k = true := by
        simp [Dict.hasKey, hp] at h
        exact h
      rw [Dict.update_get_of_hasKey E2 (Dict.insert P k0 v0) k htail h2]
      simp [Dict.get, hp]

/-- Assigning an absent key appends the binding. -/
theorem Dict.insert_of_hasKey_eq_false (d : Dict) (k : String) (v : JVal)
    (h : Dict.hasKey d k = false) :
    Dict.insert d k v = d ++ [(k, v)] := by
  induction d with
  | nil => rfl
  | cons p tl ih =>
    simp [Dict.hasKey] at h
    simp [Dict.insert, h.1, ih h.2]

/-- Membership of a key in a concatenation of dicts. -/
theorem Dict.hasKey_append (P Q : Dict) (k : String) :
    Dict.hasKey (P ++ Q) k = (Dict.hasKey P k || Dict.hasKey Q k) := by
  induction P with
  | nil => simp [Dict.hasKey]
  | cons p tl ih => simp [Dict.hasKey, ih, Bool.or_assoc]

/-- Updating by overrides whose keys are all fresh appends them in order. -/
theorem Dict.update_append_of_disjoint : ∀ (E P : Dict),
    NodupKeys E → (∀ p ∈ E, Dict.hasKey P p.1 = false) →
    Dict.update P E = P ++ E
  | [], P, _, _ => by simp [Dict.update]
  | (k0, v0) :: E2, P, hn, hd => by
    rcases hn with _ | ⟨hhead, htail⟩
    rw [Dict.update_cons,
      Dict.insert_of_hasKey_eq_false P k0 v0 (hd (k0, v0) (List.mem_cons_self _ _))]
    have hd2 : ∀ p ∈ E2, Dict.hasKey (P ++ [(k0, v0)]) p.1 = false := by
      intro q hq
      rw [Dict.hasKey_append]
      have h1 : Dict.hasKey P q.1 = false := hd q (List.mem_cons_of_mem _ hq)
      have h2 : Dict.hasKey [(k0, v0)] q.1 = false := by
        simp [Dict.hasKey]
        intro hqp
        exact absurd hqp (hhead q hq)
      rw [h1, h2]
      rfl
    rw [Dict.update_append_of_disjoint E2 (P ++ [(k0, v0)]) htail hd2]
    simp

/-- The extra-token loop only ever assigns keys, so it preserves key
distinctness of the accumulator. -/
theorem parse_additional_loop_nodup (env : PyEnv) : ∀ (xs : List String) (acc acc2 : Dict),
    NodupKeys acc → parse_additional_loop env xs acc = Except.ok acc2 → NodupKeys acc2
  | [], acc, acc2, hn, h => by
    simp [parse_additional_loop] at h
    exact h ▸ hn
  | [a], acc, acc2, hn, h => by
    by_cases ha : py_startswith a "--"
    · simp [parse_additional_loop, ha] at h
    · simp [parse_additional_loop, ha] at h
      exact h ▸ hn
  | a :: b :: rest, acc, acc2, hn, h => by
    by_cases ha : py_startswith a "--"
    · simp only [parse_additional_loop, ha, if_pos] at h
      exact parse_additional_loop_nodup env rest _ acc2
        (Dict.insert_nodup acc (pyKey a) (parse_input_data env b) hn) h
    · simp only [parse_additional_loop, ha, if_neg, Bool.false_eq_true, ite_false] at h
      exact parse_additional_loop_nodup env rest acc acc2 hn h

/-- The dict `parse_additional_data` builds has pairwise-distinct keys. -/
theorem parse_additional_data_nodup (env : PyEnv) (args : List String) (E : Dict)
    (h : parse_additional_data env args = Except.ok E) : NodupKeys E :=
  parse_additional_loop_nodup env args [] E (List.Pairwise.nil) h

/-- Splitting the extra-token loop at an even offset: the tokens after the
split are folded into whatever the tokens before it produced. -/
theorem parse_additional_loop_append (env : PyEnv) (ys : List String) :
    ∀ (xs : List String) (acc acc2 : Dict), xs.length % 2 = 0 →
    parse_additional_loop env xs acc = Except.ok acc2 →
    parse_additional_loop env (xs ++ ys) acc = parse_additional_loop env ys acc2
  | [], acc, acc2, _, h => by
    simp [parse_additional_loop] at h
    rw [List.nil_append, h]
  | [a], _, _, hlen, _ => by simp at hlen
  | a :: b :: rest, acc, acc2, hlen, h => by
    have hrest : rest.length % 2 = 0 := by
      simp [List.length_cons] at hlen
      omega
    by_cases ha : py_startswith a "--"
    · simp only [parse_additional_loop, ha, if_pos] at h
      rw [List.cons_append, List.cons_append]
      simp only [parse_additional_loop, ha, if_pos]
      exact parse_additional_loop_append env ys rest _ acc2 hrest h
    · simp only [parse_additional_loop, ha, Bool.false_eq_true, ite_false] at h
      rw [List.cons_append, List.cons_append]
      simp only [parse_additional_loop, ha, Bool.false_eq_true, ite_false]
      exact parse_additional_loop_append env ys rest acc acc2 hrest h

/-- The list branch of the merge maps the dict update over the elements. -/
theorem updateItems_map_obj (E : Dict) (ds : List Dict) :
    updateItems E (ds.map JVal.obj)
      = Except.ok (ds.map (fun d => JVal.obj (Dict.update d E))) := by
  induction ds with
  | nil => rfl
  | cons d tl ih => simp [updateItems, ih]

/-- C1: for every primary input that resolves to a JSON object `P` and extra
tokens parsing to the mapping `E`, the merged payload is `P` updated by `E`;
with disjoint keys the result is the ordered union `P ++ E`; on overlapping
keys `E`'s binding wins; and appending a later occurrence of a flag to the
extra tokens overwrites the earlier binding (last write wins, a shallow
overwrite). -/
theorem construct_request_data_object_merge :
    (∀ (env : PyEnv) (s : String) (args : List String) (P E : Dict),
      parse_input_data env s = JVal.obj P → s ≠ "" →
      parse_additional_data env args = Except.ok E →
      construct_request_data env (some s) args = Except.ok (JVal.obj (Dict.update P E))
      ∧ ((∀ p ∈ E, Dict.hasKey P p.1 = false) → Dict.update P E = P ++ E)
      ∧ (∀ k, Dict.hasKey E k = true → Dict.get (Dict.update P E) k = Dict.get E k))
    ∧ (∀ (env : PyEnv) (args : List String) (fl v : String) (E : Dict),
      args.length % 2 = 0 → py_startswith fl "--" = true →
      parse_additional_data env args = Except.ok E →
      parse_additional_data env (args ++ [fl, v])
        = Except.ok (Dict.insert E (pyKey fl) (parse_input_data env v))) := by
  constructor
  · intro env s args P E h1 h2 h3
    refine ⟨?_, ?_, ?_⟩
    · simp [construct_request_data, h1, h2, h3]
    · intro hd
      exact Dict.update_append_of_disjoint E P (parse_additional_data_nodup env args E h3) hd
    · intro k hk
      exact Dict.update_get_of_hasKey E P k (parse_additional_data_nodup env args E h3) hk
  · intro env args fl v E hlen hfl h3
    unfold parse_additional_data at h3 ⊢
    rw [parse_additional_loop_append env [fl, v] args [] E hlen h3]
    simp [parse_additional_loop, hfl]

/-- C1 witness: merging the object `\x7b"a":1\x7d` with the extra tokens
`--b 2`, and repeating `--b 5` afterwards. -/
theorem construct_request_data_object_merge_witness :
    construct_request_data envW (some "\x7b\"a\":1\x7d") ["--b", "2"]
      = Except.ok (JVal.obj (Dict.update [("a", JVal.num 1)] [("b", JVal.num 2)]))
    ∧ Dict.update [("a", JVal.num 1)] [("b", JVal.num 2)]
      = [("a", JVal.num 1)] ++ [("b", JVal.num 2)]
    ∧ Dict.get (Dict.update [("a", JVal.num 1)] [("b", JVal.num 2)]) "b"
      = Dict.get [("b", JVal.num 2)] "b"
    ∧ parse_additional_data envW (["--b", "2"] ++ ["--b", "5"])
      = Except.ok (Dict.insert [("b", JVal.num 2)] (pyKey "--b") (parse_input_data envW "5")) := by
  have h := construct_request_data_object_merge
  have h1 := h.1 envW "\x7b\"a\":1\x7d" ["--b", "2"] [("a", JVal.num 1)] [("b", JVal.num 2)]
    rfl (by decide) rfl
  exact ⟨h1.1, h1.2.1 (by decide), h1.2.2 "b" rfl,
    h.2 envW ["--b", "2"] "--b" "5" [("b", JVal.num 2)] (by decide) (by decide) rfl⟩

/-- C4: for a primary that resolves to an array whose elements are the
objects `ds`, the merge applies the full extra-key mapping to every element
identically, and on every element the extra keys take precedence over an
identically named existing field. -/
theorem construct_request_data_array_merge :
    ∀ (env : PyEnv) (s : String) (args : List String) (ds : List Dict) (E : Dict),
    parse_input_data env s = JVal.arr (ds.map JVal.obj) → s ≠ "" →
    parse_additional_data env args = Except.ok E →
    construct_request_data env (some s) args
      = Except.ok (JVal.arr (ds.map (fun d => JVal.obj (Dict.update d E))))
    ∧ (∀ d ∈ ds, ∀ k, Dict.hasKey E k = true →
        Dict.get (Dict.update d E) k = Dict.get E k) := by
  intro env s args ds E h1 h2 h3
  refine ⟨?_, ?_⟩
  · simp [construct_request_data, h1, h2, h3, updateItems_map_obj]
  · intro d _ k hk
    exact Dict.update_get_of_hasKey E d k (parse_additional_data_nodup env args E h3) hk

/-- C4 witness: merging the array `[\x7b"a":1\x7d]` with the extra tokens
`--b 2`. -/
theorem construct_request_data_array_merge_witness :
    construct_request_data envW (some "[\x7b\"a\":1\x7d]") ["--b", "2"]
      = Except.ok (JVal.arr [JVal.obj (Dict.update [("a", JVal.num 1)] [("b", JVal.num 2)])])
    ∧ Dict.get (Dict.update [("a", JVal.num 1)] [("b", JVal.num 2)]) "b"
      = Dict.get [("b", JVal.num 2)] "b" := by
  have h := construct_request_data_array_merge envW "[\x7b\"a\":1\x7d]" ["--b", "2"]
    [[("a", JVal.num 1)]] [("b", JVal.num 2)] rfl (by decide) rfl
  exact ⟨h.1, h.2 [("a", JVal.num 1)] (List.mem_singleton.mpr rfl) "b" rfl⟩

/-- C6 counterexample: on the scalar primary `5` the merge step does not
produce the specification's reported `unsupportedShape` condition — it
crashes with an AttributeError (Python `int` has no `update`). -/
theorem construct_request_data_scalar_counterexample :
    construct_request_data envW (some "5") [] = Except.error PyErr.attributeError
    ∧ construct_request_data envW (some "5") [] ≠ Except.error PyErr.unsupportedShape := by
  refine ⟨rfl, ?_⟩
  intro h
  rw [show construct_request_data envW (some "5") [] = Except.error PyErr.attributeError
    from rfl] at h
  exact absurd (Except.error.inj h) (by decide)

/-- C6 amended: for every primary input resolving to a value that is neither
a mapping nor a list (a scalar or an unparsed string), and extra tokens that
parse, the merge step fails by raising an AttributeError at `data.update` —
an unhandled crash, not a reported "unsupported payload shape" condition. -/
theorem construct_request_data_scalar_crashes :
    ∀ (env : PyEnv) (s : String) (args : List String) (E : Dict),
    s ≠ "" → parse_additional_data env args = Except.ok E →
    isScalarJVal (parse_input_data env s) = true →
    construct_request_data env (some s) args = Except.error PyErr.attributeError := by
  intro env s args E h2 h3 hv
  rcases hveq : parse_input_data env s with _ | b | n | st | xs | d <;>
    rw [hveq] at hv <;> simp [isScalarJVal] at hv <;>
    simp [construct_request_data, h2, h3, hveq]

/-- C6 amended witness: the scalar primary `5` with extra tokens `--b 2`. -/
theorem construct_request_data_scalar_crashes_witness :
    construct_request_data envW (some "5") ["--b", "2"] = Except.error PyErr.attributeError :=
  construct_request_data_scalar_crashes envW "5" ["--b", "2"] [("b", JVal.num 2)]
    (by decide) rfl rfl

/-- C10: the odd-length extra-token list `["--a", "1", "--b"]`, whose last
token starts with `--`, makes the pairwise reader access a value token past
the end of the list: parsing crashes with an IndexError instead of returning
a mapping. -/
theorem parse_additional_data_odd_crash :
    (["--a", "1", "--b"] : List String).length % 2 = 1
    ∧ py_startswith "--b" "--" = true
    ∧ parse_additional_data envW ["--a", "1", "--b"] = Except.error PyErr.indexError :=
  ⟨by decide, by decide, rfl⟩

/-- C2: the pagination loop starts at page 1 with an empty accumulator; an
absent `data` array is treated as empty and an absent `meta.pagination`
count as 0; and for a 3-page response sequence each reporting
`total_pages = 3`, exactly the three requests `page=1,2,3` are issued and
their `data` arrays are concatenated in request order into one synthesized
result. -/
theorem make_paginated_request_pages :
    (∀ (transport : Request → RawResponse) (url : String) (ctJson : Bool)
       (params : Option Dict) (fuel : Nat),
      make_paginated_request transport url ctJson params fuel
        = paginate_loop transport url ctJson params fuel 1 [] [])
    ∧ (∀ d : Dict, Dict.hasKey d "data" = false → pyGetData (JVal.obj d) = Except.ok [])
    ∧ (∀ d : Dict, Dict.hasKey d "meta" = false → pyTotalPages (JVal.obj d) = Except.ok 0)
    ∧ (∀ (transport : Request → RawResponse) (url : String) (ctJson : Bool)
       (params : Option Dict) (fuel : Nat) (b1 b2 b3 : JVal) (d1 d2 d3 : List JVal),
      transport (page_request url ctJson params 1) = ⟨200, some b1⟩ →
      pyGetData b1 = Except.ok d1 → pyTotalPages b1 = Except.ok 3 →
      transport (page_request url ctJson params 2) = ⟨200, some b2⟩ →
      pyGetData b2 = Except.ok d2 → pyTotalPages b2 = Except.ok 3 →
      transport (page_request url ctJson params 3) = ⟨200, some b3⟩ →
      pyGetData b3 = Except.ok d3 → pyTotalPages b3 = Except.ok 3 →
      3 ≤ fuel →
      make_paginated_request transport url ctJson params fuel
        = (Except.ok (JVal.obj [("data", JVal.arr (d1 ++ d2 ++ d3))]),
           [page_request url ctJson params 1, page_request url ctJson params 2,
            page_request url ctJson params 3])) := by
  refine ⟨fun _ _ _ _ _ => rfl, ?_, ?_, ?_⟩
  · intro d h
    simp [pyGetData, Dict.get_eq_none_of_hasKey_eq_false d "data" h]
  · intro d h
    simp [pyTotalPages, Dict.get_eq_none_of_hasKey_eq_false d "meta" h, Dict.get]
  · intro transport url ctJson params fuel b1 b2 b3 d1 d2 d3 h1 hd1 ht1 h2 hd2 ht2 h3 hd3 ht3 hf
    obtain ⟨f, rfl⟩ : ∃ f, fuel = f + 1 + 1 + 1 := ⟨fuel - 3, by omega⟩
    simp only [make_paginated_request, paginate_loop, h1, hd1, ht1, h2, hd2, ht2, h3, hd3, ht3]
    norm_num

/-- C2 witness: the concrete three-page transport `tr3`. -/
theorem make_paginated_request_pages_witness :
    make_paginated_request tr3 "u" false none 3
      = (Except.ok (JVal.obj [("data",
           JVal.arr ([JVal.num 10] ++ [JVal.num 20] ++ [JVal.num 30]))]),
         [page_request "u" false none 1, page_request "u" false none 2,
          page_request "u" false none 3])
    ∧ pyGetData (JVal.obj []) = Except.ok []
    ∧ pyTotalPages (JVal.obj []) = Except.ok 0
    ∧ make_paginated_request tr3 "u" false none 3
      = paginate_loop tr3 "u" false none 3 1 [] [] := by
  have h := make_paginated_request_pages
  exact ⟨h.2.2.2 tr3 "u" false none 3 _ _ _ _ _ _ rfl rfl rfl rfl rfl rfl rfl rfl rfl
      (by decide),
    h.2.1 [] rfl, h.2.2.1 [] rfl, h.1 tr3 "u" false none 3⟩

/-- C3: during a paginated GET, a page whose status is not 200 stops the
loop immediately — the request log ends there — and its raw parsed body is
returned as the final result, with the data accumulated from page 1
discarded. -/
theorem make_paginated_request_error_stop :
    ∀ (transport : Request → RawResponse) (url : String) (ctJson : Bool)
      (params : Option Dict) (fuel : Nat) (b1 b2 : JVal) (d1 : List JVal) (st : Nat),
    transport (page_request url ctJson params 1) = ⟨200, some b1⟩ →
    pyGetData b1 = Except.ok d1 → pyTotalPages b1 = Except.ok 3 →
    transport (page_request url ctJson params 2) = ⟨st, some b2⟩ →
    st ≠ 200 → 2 ≤ fuel →
    make_paginated_request transport url ctJson params fuel
      = (Except.ok b2,
         [page_request url ctJson params 1, page_request url ctJson params 2]) := by
  intro transport url ctJson params fuel b1 b2 d1 st h1 hd1 ht1 h2 hst hf
  obtain ⟨f, rfl⟩ : ∃ f, fuel = f + 1 + 1 := ⟨fuel - 2, by omega⟩
  simp only [make_paginated_request, paginate_loop, h1, hd1, ht1, h2]
  norm_num [hst]

/-- C3 witness: the concrete transport `tr3err`, whose page 2 answers 500. -/
theorem make_paginated_request_error_stop_witness :
    make_paginated_request tr3err "u" false none 5
      = (Except.ok (JVal.str "boom"),
         [page_request "u" false none 1, page_request "u" false none 2]) :=
  make_paginated_request_error_stop tr3err "u" false none 5 (pageBody 3 [JVal.num 10])
    (JVal.str "boom") [JVal.num 10] 500 rfl rfl rfl rfl (by decide) (by decide)

/-- C7: for a non-paginated dispatch, a 200 or 204 response with a non-empty
body returns the parsed body; a 200 or 204 response with an empty body
returns the synthesized `No Content` marker; and a response with any other
status code returns its parsed body as-is, indistinguishable from success. -/
theorem make_request_result_mapping :
    ∀ (transport : Request → RawResponse) (method endpoint : String)
      (data params : Option JVal) (store_hash auth_token : String)
      (files : Option (String × String)) (fuel : Nat),
    (∀ v, transport (single_request method (api_url store_hash endpoint) data params files)
        = ⟨200, some v⟩ →
      make_request transport method endpoint data params false store_hash auth_token files fuel
        = (Except.ok v,
           [single_request method (api_url store_hash endpoint) data params files]))
    ∧ (∀ v, transport (single_request method (api_url store_hash endpoint) data params files)
        = ⟨204, some v⟩ →
      make_request transport method endpoint data params false store_hash auth_token files fuel
        = (Except.ok v,
           [single_request method (api_url store_hash endpoint) data params files]))
    ∧ (transport (single_request method (api_url store_hash endpoint) data params files)
        = ⟨200, none⟩ →
      make_request transport method endpoint data params false store_hash auth_token files fuel
        = (Except.ok (JVal.obj [("status", JVal.num 200), ("title", JVal.str "No Content")]),
           [single_request method (api_url store_hash endpoint) data params files]))
    ∧ (transport (single_request method (api_url store_hash endpoint) data params files)
        = ⟨204, none⟩ →
      make_request transport method endpoint data params false store_hash auth_token files fuel
        = (Except.ok (JVal.obj [("status", JVal.num 204), ("title", JVal.str "No Content")]),
           [single_request method (api_url store_hash endpoint) data params files]))
    ∧ (∀ (st : Nat) (v : JVal), st ≠ 200 → st ≠ 204 →
      transport (single_request method (api_url store_hash endpoint) data params files)
        = ⟨st, some v⟩ →
      make_request transport method endpoint data params false store_hash auth_token files fuel
        = (Except.ok v,
           [single_request method (api_url store_hash endpoint) data params files])) := by
  intro transport method endpoint data params store_hash auth_token files fuel
  refine ⟨?_, ?_, ?_, ?_, ?_⟩
  · intro v h
    simp [make_request, h]
  · intro v h
    simp [make_request, h]
  · intro h
    simp [make_request, h]
  · intro h
    simp [make_request, h]
  · intro st v hst1 hst2 h
    simp [make_request, h, hst1, hst2]

/-- C7 witness: the three concrete transports `trBody`, `trEmpty`, `trErr`. -/
theorem make_request_result_mapping_witness :
    make_request trBody "GET" "e" none none false "s" "t" none 1
      = (Except.ok (JVal.str "ok"), [single_request "GET" (api_url "s" "e") none none none])
    ∧ make_request trEmpty "GET" "e" none none false "s" "t" none 1
      = (Except.ok (JVal.obj [("status", JVal.num 204), ("title", JVal.str "No Content")]),
         [single_request "GET" (api_url "s" "e") none none none])
    ∧ make_request trErr "GET" "e" none none false "s" "t" none 1
      = (Except.ok (JVal.str "err"), [single_request "GET" (api_url "s" "e") none none none]) :=
  ⟨(make_request_result_mapping trBody "GET" "e" none none "s" "t" none 1).1 (JVal.str "ok") rfl,
   (make_request_result_mapping trEmpty "GET" "e" none none "s" "t" none 1).2.2.2.1 rfl,
   (make_request_result_mapping trErr "GET" "e" none none "s" "t" none 1).2.2.2.2 500
     (JVal.str "err") (by decide) (by decide) rfl⟩

/-- C5 counterexample: a multipart POST whose merged payload carries the
extra field `x` besides the file field.  The issued request does carry the
file under its field name with no JSON body, but the remaining payload field
is passed along as the `data=` form body — the reference behavior does not
send only the file. -/
theorem handle_request_multipart_counterexample :
    (handle_request trBody "v3/catalog/products/7/images" "POST" false (some "image_file")
        payload5 "s" "t" 1).2
      = ([⟨"POST", "https://api.bigcommerce.com/stores/s/v3/catalog/products/7/images",
           false, none, some (JVal.obj [("x", JVal.num 1)]), none,
           some ("image_file", "f.png")⟩], ⟨["f.png"], []⟩)
    ∧ ((handle_request trBody "v3/catalog/products/7/images" "POST" false (some "image_file")
        payload5 "s" "t" 1).2.1.all (fun r => r.dataBody.isNone)) = false :=
  ⟨rfl, rfl⟩

/-- C5 amended: when the multipart field name is set and present in the
payload mapping with a string value, that key is removed from the payload,
its value is opened (for binary reading) as a file, and the single issued
request is multipart: it carries the file under the original field name, has
no `Content-Type: application/json` header and no JSON body — but the
remaining payload fields travel with it as the `data=` form body rather
than being dropped; when the key is absent, the request is ordinary JSON:
no file, the whole payload as JSON body. -/
theorem handle_request_multipart_amended :
    ∀ (transport : Request → RawResponse) (endpoint method : String) (ap : Bool)
      (k path : String) (d : Dict) (store_hash auth_token : String) (fuel : Nat),
    (method = "POST" ∨ method = "PUT") →
    Dict.hasKey d k = true →
    Dict.get d k = some (JVal.str path) →
    (handle_request transport endpoint method ap (some k) (JVal.obj d)
        store_hash auth_token fuel).2
      = ([⟨method, api_url store_hash endpoint, false, none,
           some (JVal.obj (Dict.pop d k)), none, some (k, path)⟩], ⟨[path], []⟩)
    ∧ ∀ d2 : Dict, Dict.hasKey d2 k = false →
      (handle_request transport endpoint method ap (some k) (JVal.obj d2)
          store_hash auth_token fuel).2
        = ([⟨method, api_url store_hash endpoint, true, some (JVal.obj d2),
             none, none, none⟩], ⟨[], []⟩) := by
  intro transport endpoint method ap k path d store_hash auth_token fuel hm hk hget
  constructor
  · rcases hm with rfl | rfl <;>
      simp [handle_request, hk, hget, make_request, single_request]
  · intro d2 hk2
    rcases hm with rfl | rfl <;>
      simp [handle_request, hk2, handle_request_plain, make_request, single_request]

/-- C5 amended witness: the concrete multipart payload `payload5` with the
field present, and the payload without it. -/
theorem handle_request_multipart_amended_witness :
    (handle_request trBody "e" "POST" false (some "image_file") payload5 "s" "t" 1).2
      = ([⟨"POST", api_url "s" "e", false, none,
           some (JVal.obj (Dict.pop [("image_file", JVal.str "f.png"), ("x", JVal.num 1)]
             "image_file")), none, some ("image_file", "f.png")⟩], ⟨["f.png"], []⟩)
    ∧ (handle_request trBody "e" "POST" false (some "image_file")
        (JVal.obj [("x", JVal.num 1)]) "s" "t" 1).2
      = ([⟨"POST", api_url "s" "e", true, some (JVal.obj [("x", JVal.num 1)]),
           none, none, none⟩], ⟨[], []⟩) := by
  have h := handle_request_multipart_amended trBody "e" "POST" false "image_file" "f.png"
    [("image_file", JVal.str "f.png"), ("x", JVal.num 1)] "s" "t" 1 (Or.inl rfl) rfl rfl
  exact ⟨h.1, h.2 [("x", JVal.num 1)] rfl⟩

/-- C8 counterexample: in a concrete multipart dispatch that completes, the
opened handle for `f.png` is not in the closed set afterwards — it is not
released once the request completes. -/
theorem handle_request_file_not_closed :
    (handle_request trBody "e" "POST" false (some "image_file") payload5 "s" "t" 1).2.2.openedFiles
      = ["f.png"]
    ∧ (handle_request trBody "e" "POST" false (some "image_file") payload5 "s" "t" 1).2.2.closedFiles
      = []
    ∧ ¬ ("f.png" ∈ (handle_request trBody "e" "POST" false (some "image_file") payload5
          "s" "t" 1).2.2.closedFiles) := by
  refine ⟨rfl, rfl, ?_⟩
  rw [show (handle_request trBody "e" "POST" false (some "image_file") payload5
    "s" "t" 1).2.2.closedFiles = [] from rfl]
  exact List.not_mem_nil "f.png"

/-- C8 amended: for every multipart dispatch the file handle is acquired
immediately before the request, but it is never released — whatever the
transport answers (success or failure), the run ends with the handle among
the opened files and the closed set empty. -/
theorem handle_request_file_never_closed :
    ∀ (transport : Request → RawResponse) (endpoint method : String) (ap : Bool)
      (k path : String) (d : Dict) (store_hash auth_token : String) (fuel : Nat),
    Dict.hasKey d k = true →
    Dict.get d k = some (JVal.str path) →
    (handle_request transport endpoint method ap (some k) (JVal.obj d)
        store_hash auth_token fuel).2.2
      = ⟨[path], []⟩ := by
  intro transport endpoint method ap k path d store_hash auth_token fuel hk hget
  simp [handle_request, hk, hget]

/-- C8 amended witness: the concrete multipart dispatch, under a transport
that succeeds and one that fails with status 500. -/
theorem handle_request_file_never_closed_witness :
    (handle_request trBody "e" "POST" false (some "image_file") payload5 "s" "t" 1).2.2
      = ⟨["f.png"], []⟩
    ∧ (handle_request trErr "e" "POST" false (some "image_file") payload5 "s" "t" 1).2.2
      = ⟨["f.png"], []⟩ :=
  ⟨handle_request_file_never_closed trBody "e" "POST" false "image_file" "f.png"
      [("image_file", JVal.str "f.png"), ("x", JVal.num 1)] "s" "t" 1 rfl rfl,
   handle_request_file_never_closed trErr "e" "POST" false "image_file" "f.png"
      [("image_file", JVal.str "f.png"), ("x", JVal.num 1)] "s" "t" 1 rfl rfl⟩

/-- C9: every action of the shipped command tree yields `None` when
`action_command` reads `action.get('multipartParameter', None)` — exactly
two actions carry a multipart intent, and both spell the key
`multipartParamter` — and a dispatch whose multipart field name is `None`
never opens a file, whatever the merged payload is. -/
theorem shipped_tree_multipart_never :
    allActions.all (fun a => (action_multipart a).isNone) = true
    ∧ allActions.filter (fun a => (aget a "multipartParamter").isSome)
      = [aAddImage, aAddImage]
    ∧ ∀ (transport : Request → RawResponse) (endpoint method : String) (ap : Bool)
        (rd : JVal) (store_hash auth_token : String) (fuel : Nat),
      (handle_request transport endpoint method ap none rd
          store_hash auth_token fuel).2.2.openedFiles = [] := by
  refine ⟨rfl, rfl, ?_⟩
  intro transport endpoint method ap rd store_hash auth_token fuel
  cases rd with
  | null => rfl
  | bool b => rfl
  | num n => rfl
  | str s => rfl
  | obj d => rfl
  | arr xs =>
    by_cases h : xs.any (fun v => match v with | JVal.null => true | _ => false)
    · simp [handle_request, h]
    · simp [handle_request, h, handle_request_plain]

/-- C9 witness: a concrete dispatch with no multipart field name opens no
file. -/
theorem shipped_tree_multipart_never_witness :
    (handle_request trBody "e" "GET" false none (JVal.obj [("x", JVal.num 1)])
        "s" "t" 1).2.2.openedFiles = [] := by
  have h := shipped_tree_multipart_never
  exact h.2.2 trBody "e" "GET" false (JVal.obj [("x", JVal.num 1)]) "s" "t" 1
